import Mathlib

/-!
Shallow embedding of the wallet-setup ledger engine.

The definitions below translate `src/app/services/wallet.py` (class
`WalletService`), the data model in `src/app/models/wallet.py` and
`src/app/models/transaction.py`, and the webhook route in
`src/app/api/routes/wallet.py`.  Persistence is modelled as an explicit
`LedgerState`; SQLAlchemy session semantics (flush / commit / rollback)
are reflected by which state an operation returns: an operation that
rolls back returns its input state, an operation that commits returns
the mutated state.  Python `HTTPException`s become the `WalletError`
inductive; network calls to Paystack become explicit outcome parameters.
Machine-irrelevant columns (surrogate ids, `created_at`) are omitted.
-/

namespace WalletSetup

/-- `TransactionType` (src/app/models/transaction.py, lines 9-11). -/
inductive TransactionType where
  | deposit
  | transfer
  deriving DecidableEq, Repr

/-- `TransactionStatus` (src/app/models/transaction.py, lines 14-17). -/
inductive TransactionStatus where
  | pending
  | success
  | failed
  deriving DecidableEq, Repr

/-- The `data` dict returned by `PaystackClient.verify_transaction`.
`status` is what `verification.get("status")` reads (absent key gives
`none`); `amount` stands for the provider-reported amount field, which
is present in real Paystack responses but never read by the ledger. -/
structure VerifyResult where
  status : Option String
  amount : Int
  deriving DecidableEq, Repr

/-- The `extra_data` JSON column of a transaction row: empty default,
the Paystack initialize response, a verification response, or the
transfer metadata written by `WalletService.transfer`. -/
inductive ExtraData where
  | empty
  | gatewayInit (authorizationUrl : String)
  | verification (v : VerifyResult)
  | transferInfo (recipientWalletId : Nat) (recipientWalletNumber : String)
  deriving DecidableEq, Repr

/-- A row of `transactions` (src/app/models/transaction.py).  Timestamps
are integer seconds; `last_verification_attempt` is `none` until the
first verification attempt, as in the ORM default. -/
structure Transaction where
  user_id : Nat
  wallet_id : Nat
  reference : String
  type : TransactionType
  amount : Int
  status : TransactionStatus
  extra_data : ExtraData
  verification_attempts : Nat
  last_verification_attempt : Option Int
  deriving DecidableEq, Repr

/-- A row of `wallets` (src/app/models/wallet.py). -/
structure Wallet where
  id : Nat
  user_id : Nat
  wallet_number : String
  balance : Int
  deriving DecidableEq, Repr

/-- The persistent store the `WalletService` session operates on. -/
structure LedgerState where
  wallets : List Wallet
  transactions : List Transaction
  deriving DecidableEq, Repr

/-- Modelled from the spec: the pacing configuration values
`paystack_verify_interval_seconds`, `paystack_verify_backoff_seconds`
and `paystack_verify_threshold_attempts` are read by
`WalletService._required_wait_seconds` (src/app/services/wallet.py,
lines 215-218) and by `src/app/main.py`, but are not declared in
`Settings` in `src/app/core/config.py`; per spec section 4.3 they are
configuration values, carried here as an explicit structure. -/
structure Settings where
  paystack_verify_interval_seconds : Nat
  paystack_verify_backoff_seconds : Nat
  paystack_verify_threshold_attempts : Nat
  deriving DecidableEq, Repr

/-- The `HTTPException`s raised by the wallet service and the Paystack
client, identified by their detail strings (and status codes):
`gatewayHttpError` is an `HTTPException` raised inside
`PaystackClient._handle_response` and re-raised unchanged by the
service; `internalError` stands for an unhandled Python exception. -/
inductive WalletError where
  | invalidAmount
  | walletNotFound
  | recipientNotFound
  | selfTransfer
  | duplicateReference
  | insufficientBalance
  | transactionNotFound
  | invalidSignature
  | invalidPayload
  | missingReference
  | verificationFailed
  | verificationUnavailable
  | gatewayHttpError (code : Nat)
  | internalError
  deriving DecidableEq, Repr

/-- Outcome of one `PaystackClient.verify_transaction` call:
a parsed response, an `HTTPException` raised by `_handle_response`
(non-2xx status or provider failure flag), or any other exception
(transport error, bad JSON, timeout). -/
inductive GatewayOutcome where
  | ok (v : VerifyResult)
  | httpError (code : Nat)
  | transportError
  deriving DecidableEq, Repr

/-- Outcome of one `PaystackClient.initialize_transaction` call: the
response `data` (we retain its `authorization_url`), or the exception it
raised, re-raised as-is by `initialize_deposit`. -/
inductive GatewayInitOutcome where
  | ok (authorizationUrl : String)
  | failed (e : WalletError)
  deriving DecidableEq, Repr

/-- The raw webhook body after `json.loads`: either not valid JSON, or
parsed with `payload.get("data", {}).get("reference")` and the other
fields (such as an amount) the provider includes but the code ignores. -/
inductive WebhookPayload where
  | malformed
  | parsed (reference : Option String) (amount : Int)
  deriving DecidableEq, Repr

/-- `WalletService._get_transaction_by_reference`:
`select(Transaction).where(Transaction.reference == reference)`. -/
def getTransactionByReference (s : LedgerState) (reference : String) : Option Transaction :=
  s.transactions.find? (fun t => t.reference == reference)

/-- `WalletService._get_wallet_by_number`:
`select(Wallet).where(Wallet.wallet_number == wallet_number)`. -/
def getWalletByNumber (s : LedgerState) (walletNumber : String) : Option Wallet :=
  s.wallets.find? (fun w => w.wallet_number == walletNumber)

/-- `self.session.get(Wallet, id)`. -/
def getWalletById (s : LedgerState) (walletId : Nat) : Option Wallet :=
  s.wallets.find? (fun w => w.id == walletId)

/-- `WalletService.get_wallet_for_user`:
`select(Wallet).where(Wallet.user_id == user.id)` (the error case is
handled at each call site below). -/
def getWalletForUser (s : LedgerState) (userId : Nat) : Option Wallet :=
  s.wallets.find? (fun w => w.user_id == userId)

/-- In-place ORM mutation of the transaction object holding `reference`,
as seen after commit. -/
def updateTransaction (s : LedgerState) (reference : String) (f : Transaction → Transaction) :
    LedgerState :=
  { s with transactions :=
      s.transactions.map (fun t => if t.reference == reference then f t else t) }

/-- In-place ORM mutation `wallet.balance += delta` of the wallet row
with id `walletId`, as seen after commit. -/
def adjustBalance (s : LedgerState) (walletId : Nat) (delta : Int) : LedgerState :=
  { s with wallets :=
      s.wallets.map (fun w => if w.id == walletId then { w with balance := w.balance + delta } else w) }

/-- Balance of the wallet with the given id, if present. -/
def walletBalance (s : LedgerState) (walletId : Nat) : Option Int :=
  (getWalletById s walletId).map (fun w => w.balance)

/-- `reference or await self._ensure_unique_reference()`
(src/app/services/wallet.py, line 103): Python `or` falls through both
on `None` and on the empty string; `fresh` stands for the uuid4 hex the
generator would return (its uniqueness is a hypothesis where needed). -/
def resolveReference (reference : Option String) (fresh : String) : String :=
  match reference with
  | none => fresh
  | some r => if r = "" then fresh else r

/-- `WalletService.transfer` (src/app/services/wallet.py, lines 90-133).
The sender wallet is the session object handed in by the route; the
happy path models a commit that does not raise `SQLAlchemyError`. -/
def transfer (s : LedgerState) (sender : Wallet) (recipientWalletNumber : String)
    (amount : Int) (reference : Option String) (fresh : String) :
    LedgerState × Except WalletError Transaction :=
  if amount ≤ 0 then (s, .error .invalidAmount)
  else
    match getWalletByNumber s recipientWalletNumber with
    | none => (s, .error .recipientNotFound)
    | some recipient =>
      if recipient.id = sender.id then (s, .error .selfTransfer)
      else
        let ref := resolveReference reference fresh
        match getTransactionByReference s ref with
        | some _ => (s, .error .duplicateReference)
        | none =>
          if sender.balance < amount then (s, .error .insufficientBalance)
          else
            let s₁ := adjustBalance s sender.id (-amount)
            let s₂ := adjustBalance s₁ recipient.id amount
            let t : Transaction :=
              { user_id := sender.user_id
                wallet_id := sender.id
                reference := ref
                type := .transfer
                amount := amount
                status := .success
                extra_data := .transferInfo recipient.id recipient.wallet_number
                verification_attempts := 0
                last_verification_attempt := none }
            ({ s₂ with transactions := s₂.transactions ++ [t] }, .ok t)

/-- `WalletService._required_wait_seconds`
(src/app/services/wallet.py, lines 215-218). -/
def requiredWaitSeconds (cfg : Settings) (attempts : Nat) : Nat :=
  if cfg.paystack_verify_threshold_attempts ≤ attempts then
    cfg.paystack_verify_backoff_seconds
  else
    cfg.paystack_verify_interval_seconds

/-- `WalletService._is_attempt_due` (src/app/services/wallet.py, lines
208-213): `self._now() - last_attempt >= timedelta(seconds=wait)`. -/
def isAttemptDue (cfg : Settings) (now : Int) (t : Transaction) : Bool :=
  match t.last_verification_attempt with
  | none => true
  | some last =>
      (requiredWaitSeconds cfg t.verification_attempts : Int) ≤ now - last

/-- `WalletService._update_verification_metadata`
(src/app/services/wallet.py, lines 220-222). -/
def updateVerificationMetadata (now : Int) (t : Transaction) : Transaction :=
  { t with verification_attempts := t.verification_attempts + 1
           last_verification_attempt := some now }

/-- `WalletService._attempt_verification` (src/app/services/wallet.py,
lines 180-206), acting on the session object `t`.  The metadata update
made before the gateway call is uncommitted, so on a gateway exception
`session.rollback()` discards it and the input state is returned: an
`HTTPException` from the client is re-raised unchanged, any other
exception becomes the 502 "Unable to verify transaction".  On a parsed
response the metadata, the status change of `_apply_success` /
the failed branch, and the stored response are committed together.
`internalError` is the `AttributeError` Python would raise in
`_apply_success` if `session.get(Wallet, ...)` returned `None`
(nothing committed in that case). -/
def attemptVerification (cfg : Settings) (s : LedgerState) (t : Transaction)
    (force : Bool) (now : Int) (gw : GatewayOutcome) :
    LedgerState × Except WalletError Bool :=
  if t.status ≠ .pending then (s, .ok false)
  else if ¬ force ∧ ¬ isAttemptDue cfg now t then (s, .ok false)
  else
    match gw with
    | .httpError code => (s, .error (.gatewayHttpError code))
    | .transportError => (s, .error .verificationUnavailable)
    | .ok v =>
      let s₁ := updateTransaction s t.reference (updateVerificationMetadata now)
      if v.status = some "success" then
        match getWalletById s₁ t.wallet_id with
        | none => (s, .error .internalError)
        | some _ =>
          let s₂ := adjustBalance s₁ t.wallet_id t.amount
          let s₃ := updateTransaction s₂ t.reference
            (fun u => { u with status := .success, extra_data := .verification v })
          (s₃, .ok true)
      else if v.status = some "failed" then
        (updateTransaction s₁ t.reference
          (fun u => { u with status := .failed, extra_data := .verification v }), .ok true)
      else
        (updateTransaction s₁ t.reference
          (fun u => { u with extra_data := .verification v }), .ok true)

/-- `WalletService.verify_and_credit` (src/app/services/wallet.py,
lines 62-74).  The status re-check after `_attempt_verification` reads
the same session object, i.e. the stored row. -/
def verifyAndCredit (cfg : Settings) (s : LedgerState) (reference : String)
    (now : Int) (gw : GatewayOutcome) : LedgerState × Except WalletError Transaction :=
  match getTransactionByReference s reference with
  | none => (s, .error .transactionNotFound)
  | some t =>
    if t.status = .success then (s, .ok t)
    else
      match attemptVerification cfg s t true now gw with
      | (s₁, .error e) => (s₁, .error e)
      | (s₁, .ok _) =>
        match getTransactionByReference s₁ reference with
        | none => (s₁, .error .internalError)
        | some t₁ =>
          if t₁.status ≠ .success then (s₁, .error .verificationFailed)
          else (s₁, .ok t₁)

/-- `WalletService.process_webhook` (src/app/services/wallet.py, lines
76-88).  `sigValid` is the result of
`PaystackClient.verify_signature(raw_body, signature)`; the reference
check `if not reference` treats both a missing key and the empty string
as falsy. -/
def processWebhook (cfg : Settings) (s : LedgerState) (sigValid : Bool)
    (payload : WebhookPayload) (now : Int) (gw : GatewayOutcome) :
    LedgerState × Except WalletError Unit :=
  if ¬ sigValid then (s, .error .invalidSignature)
  else
    match payload with
    | .malformed => (s, .error .invalidPayload)
    | .parsed reference _amount =>
      match reference with
      | none => (s, .error .missingReference)
      | some r =>
        if r = "" then (s, .error .missingReference)
        else
          match verifyAndCredit cfg s r now gw with
          | (s₁, .error e) => (s₁, .error e)
          | (s₁, .ok _) => (s₁, .ok ())

/-- `WalletService.initialize_deposit` (src/app/services/wallet.py,
lines 30-60).  The pending row is added and flushed inside the open
unit of work; if the gateway call raises, `session.rollback()` removes
it and the exception is re-raised, so the input state is returned.  On
success the response metadata is attached and everything committed. -/
def initializeDeposit (s : LedgerState) (userId : Nat) (amount : Int)
    (fresh : String) (gw : GatewayInitOutcome) :
    LedgerState × Except WalletError (String × String) :=
  if amount ≤ 0 then (s, .error .invalidAmount)
  else
    match getWalletForUser s userId with
    | none => (s, .error .walletNotFound)
    | some wallet =>
      let t : Transaction :=
        { user_id := userId
          wallet_id := wallet.id
          reference := fresh
          type := .deposit
          amount := amount
          status := .pending
          extra_data := .empty
          verification_attempts := 0
          last_verification_attempt := none }
      match gw with
      | .failed e => (s, .error e)
      | .ok url =>
        ({ s with transactions := s.transactions ++ [{ t with extra_data := .gatewayInit url }] },
         .ok (fresh, url))

/-- `WalletService.retry_pending_transactions` (src/app/services/wallet.py,
lines 150-163): snapshot the pending rows, attempt each with
`force=False`, swallow per-transaction exceptions (the rollback already
restored the state), count the ones that performed a round.  `gw` gives
the gateway outcome per reference. -/
def retryPendingTransactions (cfg : Settings) (s : LedgerState) (now : Int)
    (gw : String → GatewayOutcome) : LedgerState × Nat :=
  (s.transactions.filter (fun t => t.status == .pending)).foldl
    (fun acc t =>
      match getTransactionByReference acc.1 t.reference with
      | none => acc
      | some cur =>
        match attemptVerification cfg acc.1 cur false now (gw t.reference) with
        | (_, .error _) => acc
        | (s₁, .ok updated) => (s₁, if updated then acc.2 + 1 else acc.2))
    (s, 0)

/-- A single transaction status either stays put or moves from `pending`
to one of the terminal states. -/
def statusForward (a b : TransactionStatus) : Prop :=
  a = b ∨ (a = .pending ∧ (b = .success ∨ b = .failed))

/-- Every transaction present in `s` is still present in `s'` and its
status has only moved forward. -/
def forwardSim (s s' : LedgerState) : Prop :=
  ∀ r t, getTransactionByReference s r = some t →
    ∃ t', getTransactionByReference s' r = some t' ∧ statusForward t.status t'.status

/-- The transaction row after one verification round that found provider
status `success`: attempt metadata stamped, status `success`, response
stored. -/
def creditedTransaction (t : Transaction) (now : Int) (v : VerifyResult) : Transaction :=
  { t with verification_attempts := t.verification_attempts + 1
           last_verification_attempt := some now
           status := .success
           extra_data := .verification v }

/-- The success `Transaction` row inserted by `WalletService.transfer`
(src/app/services/wallet.py, lines 115-126). -/
def transferTransaction (sender recipient : Wallet) (ref : String) (a : Int) : Transaction :=
  { user_id := sender.user_id
    wallet_id := sender.id
    reference := ref
    type := .transfer
    amount := a
    status := .success
    extra_data := .transferInfo recipient.id recipient.wallet_number
    verification_attempts := 0
    last_verification_attempt := none }

/-- One step of the spec's ordered precondition list for `Transfer`
(spec section 4.2): the first failing check, or `none` when all
preconditions pass.  Written from the spec's words, to be compared with
the embedded `transfer`. -/
def specTransferFirstFailure (s : LedgerState) (sender : Wallet) (num : String)
    (a : Int) (reference : Option String) (fresh : String) : Option WalletError :=
  if a ≤ 0 then some .invalidAmount
  else
    match getWalletByNumber s num with
    | none => some .recipientNotFound
    | some recipient =>
      if recipient.id = sender.id then some .selfTransfer
      else if (getTransactionByReference s (resolveReference reference fresh)).isSome then
        some .duplicateReference
      else if sender.balance < a then some .insufficientBalance
      else none

/-- The error produced by `transfer`, if any. -/
def transferError (s : LedgerState) (sender : Wallet) (num : String)
    (a : Int) (reference : Option String) (fresh : String) : Option WalletError :=
  match (transfer s sender num a reference fresh).2 with
  | .error e => some e
  | .ok _ => none

/-! ### Concrete fixtures used by closed instances -/

def wA : Wallet := { id := 1, user_id := 10, wallet_number := "W1", balance := 100 }

def wB : Wallet := { id := 2, user_id := 20, wallet_number := "W2", balance := 5 }

/-- A pending deposit of 40 minor units awaiting reconciliation. -/
def txPending : Transaction :=
  { user_id := 10, wallet_id := 1, reference := "r1", type := .deposit, amount := 40,
    status := .pending, extra_data := .empty, verification_attempts := 0,
    last_verification_attempt := none }

/-- A pending deposit that already saw 3 verification attempts, the last
one at time 0. -/
def txRetried : Transaction :=
  { user_id := 10, wallet_id := 1, reference := "r2", type := .deposit, amount := 15,
    status := .pending, extra_data := .empty, verification_attempts := 3,
    last_verification_attempt := some 0 }

def sampleState : LedgerState := { wallets := [wA, wB], transactions := [txPending] }

def stateNoTx : LedgerState := { wallets := [wA], transactions := [] }

def cfg0 : Settings :=
  { paystack_verify_interval_seconds := 5
    paystack_verify_backoff_seconds := 60
    paystack_verify_threshold_attempts := 3 }

/-- A provider success response whose own amount differs from the stored
transaction amount. -/
def vOk : VerifyResult := { status := some "success", amount := 999 }

def vBad : VerifyResult := { status := some "failed", amount := 999 }

/-! ### Lookup and update lemmas -/

theorem find?_map_invariant {α : Type} (g : α → α) (p : α → Bool) (l : List α)
    (h : ∀ a, p (g a) = p a) :
    (l.map g).find? p = (l.find? p).map g := by
  rw [List.find?_map]
  have hpg : p ∘ g = p := funext h
  rw [hpg]

theorem getTransactionByReference_updateTransaction
    (s : LedgerState) (r : String) (f : Transaction → Transaction) (r' : String)
    (hf : ∀ u, (f u).reference = u.reference) :
    getTransactionByReference (updateTransaction s r f) r' =
      (getTransactionByReference s r').map
        (fun u => if u.reference == r then f u else u) := by
  apply find?_map_invariant
  intro u
  cases h : u.reference == r <;> simp [h, hf]

theorem getWalletById_adjustBalance
    (s : LedgerState) (wid : Nat) (δ : Int) (wid' : Nat) :
    getWalletById (adjustBalance s wid δ) wid' =
      (getWalletById s wid').map
        (fun w => if w.id == wid then { w with balance := w.balance + δ } else w) := by
  apply find?_map_invariant
  intro w
  cases h : w.id == wid <;> simp [h]

theorem getTransactionByReference_adjustBalance
    (s : LedgerState) (wid : Nat) (δ : Int) (r : String) :
    getTransactionByReference (adjustBalance s wid δ) r =
      getTransactionByReference s r := rfl

theorem getWalletById_updateTransaction
    (s : LedgerState) (r : String) (f : Transaction → Transaction) (wid : Nat) :
    getWalletById (updateTransaction s r f) wid = getWalletById s wid := rfl

theorem walletBalance_updateTransaction
    (s : LedgerState) (r : String) (f : Transaction → Transaction) (wid : Nat) :
    walletBalance (updateTransaction s r f) wid = walletBalance s wid := rfl

theorem getTransactionByReference_append
    (s : LedgerState) (l : List Transaction) (r : String) :
    getTransactionByReference { s with transactions := s.transactions ++ l } r =
      (getTransactionByReference s r).or (l.find? (fun t => t.reference == r)) := by
  unfold getTransactionByReference
  exact List.find?_append

theorem reference_of_find? {s : LedgerState} {r : String} {t : Transaction}
    (h : getTransactionByReference s r = some t) : t.reference = r := by
  have h' : s.transactions.find? (fun u => u.reference == r) = some t := h
  have hb := List.find?_some h'
  exact eq_of_beq (by simpa using hb)

theorem id_of_getWalletById {s : LedgerState} {wid : Nat} {w : Wallet}
    (h : getWalletById s wid = some w) : w.id = wid := by
  have h' : s.wallets.find? (fun u => u.id == wid) = some w := h
  have hb := List.find?_some h'
  exact eq_of_beq (by simpa using hb)

theorem walletBalance_adjustBalance_self {s : LedgerState} {wid : Nat} (δ : Int)
    {w : Wallet} (h : getWalletById s wid = some w) :
    walletBalance (adjustBalance s wid δ) wid = some (w.balance + δ) := by
  unfold walletBalance
  rw [getWalletById_adjustBalance, h]
  have hid : w.id = wid := id_of_getWalletById h
  simp [hid]

theorem walletBalance_adjustBalance_other {s : LedgerState} {wid wid' : Nat} (δ : Int)
    (hne : wid' ≠ wid) :
    walletBalance (adjustBalance s wid δ) wid' = walletBalance s wid' := by
  unfold walletBalance
  rw [getWalletById_adjustBalance]
  cases h : getWalletById s wid' with
  | none => rfl
  | some w =>
    have hid : w.id = wid' := id_of_getWalletById h
    simp [hid, hne]

/-! ### Forward status evolution -/

theorem statusForward_refl (a : TransactionStatus) : statusForward a a := Or.inl rfl

theorem statusForward_trans {a b c : TransactionStatus}
    (h₁ : statusForward a b) (h₂ : statusForward b c) : statusForward a c := by
  cases a <;> cases b <;> cases c <;> simp_all [statusForward]

theorem forwardSim_refl (s : LedgerState) : forwardSim s s :=
  fun _ t ht => ⟨t, ht, statusForward_refl t.status⟩

theorem forwardSim_trans {s₁ s₂ s₃ : LedgerState}
    (h₁ : forwardSim s₁ s₂) (h₂ : forwardSim s₂ s₃) : forwardSim s₁ s₃ := by
  intro r t ht
  obtain ⟨t', ht', hf⟩ := h₁ r t ht
  obtain ⟨t'', ht'', hf'⟩ := h₂ r t' ht'
  exact ⟨t'', ht'', statusForward_trans hf hf'⟩

theorem forwardSim_updateTransaction {s : LedgerState} {r : String}
    {f : Transaction → Transaction}
    (hf : ∀ u, (f u).reference = u.reference)
    (h : ∀ u, getTransactionByReference s r = some u → statusForward u.status (f u).status) :
    forwardSim s (updateTransaction s r f) := by
  intro r' t ht
  rw [getTransactionByReference_updateTransaction s r f r' hf, ht]
  refine ⟨_, rfl, ?_⟩
  cases hc : t.reference == r with
  | false => simp [hc, statusForward_refl]
  | true =>
    have hrr : r' = r := by
      have h₁ : t.reference = r' := reference_of_find? ht
      have h₂ : t.reference = r := eq_of_beq hc
      rw [← h₁, h₂]
    simp only [hc, if_true]
    exact h t (hrr ▸ ht)

theorem forwardSim_adjustBalance (s : LedgerState) (wid : Nat) (δ : Int) :
    forwardSim s (adjustBalance s wid δ) := by
  intro r t ht
  exact ⟨t, by rwa [getTransactionByReference_adjustBalance], statusForward_refl t.status⟩

theorem forwardSim_appendTransactions (s : LedgerState) (l : List Transaction) :
    forwardSim s { s with transactions := s.transactions ++ l } := by
  intro r t ht
  refine ⟨t, ?_, statusForward_refl t.status⟩
  rw [getTransactionByReference_append, ht]
  rfl

/-! ### Computation lemmas for the reconciliation path -/

theorem attemptVerification_httpError (cfg : Settings) (s : LedgerState)
    (t : Transaction) (force : Bool) (now : Int) (code : Nat)
    (hp : t.status = .pending)
    (hrun : force = true ∨ isAttemptDue cfg now t = true) :
    attemptVerification cfg s t force now (.httpError code) =
      (s, .error (.gatewayHttpError code)) := by
  unfold attemptVerification
  have hnp : ¬ t.status ≠ TransactionStatus.pending := by simp [hp]
  rw [if_neg hnp]
  have hg : ¬ (¬ force ∧ ¬ isAttemptDue cfg now t) := by
    rcases hrun with h | h <;> simp [h]
  rw [if_neg hg]

theorem attemptVerification_transportError (cfg : Settings) (s : LedgerState)
    (t : Transaction) (force : Bool) (now : Int)
    (hp : t.status = .pending)
    (hrun : force = true ∨ isAttemptDue cfg now t = true) :
    attemptVerification cfg s t force now .transportError =
      (s, .error .verificationUnavailable) := by
  unfold attemptVerification
  have hnp : ¬ t.status ≠ TransactionStatus.pending := by simp [hp]
  rw [if_neg hnp]
  have hg : ¬ (¬ force ∧ ¬ isAttemptDue cfg now t) := by
    rcases hrun with h | h <;> simp [h]
  rw [if_neg hg]

theorem attemptVerification_ok_success_eq (cfg : Settings) (s : LedgerState)
    (t : Transaction) (force : Bool) (now : Int) (v : VerifyResult) (w : Wallet)
    (hp : t.status = .pending)
    (hrun : force = true ∨ isAttemptDue cfg now t = true)
    (hw : getWalletById s t.wallet_id = some w)
    (hv : v.status = some "success") :
    attemptVerification cfg s t force now (.ok v) =
      (updateTransaction
        (adjustBalance (updateTransaction s t.reference (updateVerificationMetadata now))
          t.wallet_id t.amount)
        t.reference
        (fun u => { u with status := .success, extra_data := .verification v }), .ok true) := by
  unfold attemptVerification
  have hnp : ¬ t.status ≠ TransactionStatus.pending := by simp [hp]
  rw [if_neg hnp]
  have hg : ¬ (¬ force ∧ ¬ isAttemptDue cfg now t) := by
    rcases hrun with h | h <;> simp [h]
  rw [if_neg hg]
  simp only [hv, if_pos rfl]
  rw [show getWalletById (updateTransaction s t.reference (updateVerificationMetadata now))
        t.wallet_id = some w from hw]
  simp

theorem attemptVerification_ok_noWallet_eq (cfg : Settings) (s : LedgerState)
    (t : Transaction) (force : Bool) (now : Int) (v : VerifyResult)
    (hp : t.status = .pending)
    (hrun : force = true ∨ isAttemptDue cfg now t = true)
    (hw : getWalletById s t.wallet_id = none)
    (hv : v.status = some "success") :
    attemptVerification cfg s t force now (.ok v) = (s, .error .internalError) := by
  unfold attemptVerification
  have hnp : ¬ t.status ≠ TransactionStatus.pending := by simp [hp]
  rw [if_neg hnp]
  have hg : ¬ (¬ force ∧ ¬ isAttemptDue cfg now t) := by
    rcases hrun with h | h <;> simp [h]
  rw [if_neg hg]
  simp only [hv, if_pos rfl]
  rw [show getWalletById (updateTransaction s t.reference (updateVerificationMetadata now))
        t.wallet_id = none from hw]
  simp

theorem attemptVerification_ok_failed_eq (cfg : Settings) (s : LedgerState)
    (t : Transaction) (force : Bool) (now : Int) (v : VerifyResult)
    (hp : t.status = .pending)
    (hrun : force = true ∨ isAttemptDue cfg now t = true)
    (hv : v.status = some "failed") :
    attemptVerification cfg s t force now (.ok v) =
      (updateTransaction (updateTransaction s t.reference (updateVerificationMetadata now))
        t.reference
        (fun u => { u with status := .failed, extra_data := .verification v }), .ok true) := by
  unfold attemptVerification
  have hnp : ¬ t.status ≠ TransactionStatus.pending := by simp [hp]
  rw [if_neg hnp]
  have hg : ¬ (¬ force ∧ ¬ isAttemptDue cfg now t) := by
    rcases hrun with h | h <;> simp [h]
  rw [if_neg hg]
  simp [hv]

theorem attemptVerification_ok_other_eq (cfg : Settings) (s : LedgerState)
    (t : Transaction) (force : Bool) (now : Int) (v : VerifyResult)
    (hp : t.status = .pending)
    (hrun : force = true ∨ isAttemptDue cfg now t = true)
    (hv₁ : v.status ≠ some "success")
    (hv₂ : v.status ≠ some "failed") :
    attemptVerification cfg s t force now (.ok v) =
      (updateTransaction (updateTransaction s t.reference (updateVerificationMetadata now))
        t.reference
        (fun u => { u with extra_data := .verification v }), .ok true) := by
  unfold attemptVerification
  have hnp : ¬ t.status ≠ TransactionStatus.pending := by simp [hp]
  rw [if_neg hnp]
  have hg : ¬ (¬ force ∧ ¬ isAttemptDue cfg now t) := by
    rcases hrun with h | h <;> simp [h]
  rw [if_neg hg]
  simp only []
  rw [if_neg hv₁, if_neg hv₂]

theorem attemptVerification_ok_success (cfg : Settings) (s : LedgerState)
    (t : Transaction) (force : Bool) (now : Int) (v : VerifyResult) (w : Wallet)
    (ht : getTransactionByReference s t.reference = some t)
    (hp : t.status = .pending)
    (hrun : force = true ∨ isAttemptDue cfg now t = true)
    (hw : getWalletById s t.wallet_id = some w)
    (hv : v.status = some "success") :
    (attemptVerification cfg s t force now (.ok v)).2 = .ok true
    ∧ getTransactionByReference (attemptVerification cfg s t force now (.ok v)).1
        t.reference = some (creditedTransaction t now v)
    ∧ walletBalance (attemptVerification cfg s t force now (.ok v)).1 t.wallet_id =
        some (w.balance + t.amount)
    ∧ (∀ wid, wid ≠ t.wallet_id →
        walletBalance (attemptVerification cfg s t force now (.ok v)).1 wid =
          walletBalance s wid) := by
  have hred := attemptVerification_ok_success_eq cfg s t force now v w hp hrun hw hv
  rw [hred]
  have htb : (t.reference == t.reference) = true := by simp
  refine ⟨rfl, ?_, ?_, ?_⟩
  · rw [getTransactionByReference_updateTransaction]
    · rw [getTransactionByReference_adjustBalance]
      rw [getTransactionByReference_updateTransaction]
      · rw [ht]
        simp [updateVerificationMetadata, creditedTransaction, htb]
      · intro u; rfl
    · intro u; rfl
  · rw [walletBalance_updateTransaction]
    exact walletBalance_adjustBalance_self t.amount hw
  · intro wid hne
    rw [walletBalance_updateTransaction]
    rw [walletBalance_adjustBalance_other t.amount hne]
    rfl

theorem attemptVerification_ok_failed (cfg : Settings) (s : LedgerState)
    (t : Transaction) (force : Bool) (now : Int) (v : VerifyResult)
    (ht : getTransactionByReference s t.reference = some t)
    (hp : t.status = .pending)
    (hrun : force = true ∨ isAttemptDue cfg now t = true)
    (hv : v.status = some "failed") :
    (attemptVerification cfg s t force now (.ok v)).2 = .ok true
    ∧ getTransactionByReference (attemptVerification cfg s t force now (.ok v)).1
        t.reference =
        some { t with verification_attempts := t.verification_attempts + 1
                      last_verification_attempt := some now
                      status := .failed
                      extra_data := .verification v }
    ∧ (∀ wid, walletBalance (attemptVerification cfg s t force now (.ok v)).1 wid =
        walletBalance s wid) := by
  have hred := attemptVerification_ok_failed_eq cfg s t force now v hp hrun hv
  rw [hred]
  have htb : (t.reference == t.reference) = true := by simp
  refine ⟨rfl, ?_, ?_⟩
  · rw [getTransactionByReference_updateTransaction]
    · rw [getTransactionByReference_updateTransaction]
      · rw [ht]
        simp [updateVerificationMetadata, htb]
      · intro u; rfl
    · intro u; rfl
  · intro wid
    rw [walletBalance_updateTransaction, walletBalance_updateTransaction]

theorem attemptVerification_ok_other (cfg : Settings) (s : LedgerState)
    (t : Transaction) (force : Bool) (now : Int) (v : VerifyResult)
    (ht : getTransactionByReference s t.reference = some t)
    (hp : t.status = .pending)
    (hrun : force = true ∨ isAttemptDue cfg now t = true)
    (hv₁ : v.status ≠ some "success")
    (hv₂ : v.status ≠ some "failed") :
    (attemptVerification cfg s t force now (.ok v)).2 = .ok true
    ∧ getTransactionByReference (attemptVerification cfg s t force now (.ok v)).1
        t.reference =
        some { t with verification_attempts := t.verification_attempts + 1
                      last_verification_attempt := some now
                      extra_data := .verification v }
    ∧ (∀ wid, walletBalance (attemptVerification cfg s t force now (.ok v)).1 wid =
        walletBalance s wid) := by
  have hred := attemptVerification_ok_other_eq cfg s t force now v hp hrun hv₁ hv₂
  rw [hred]
  have htb : (t.reference == t.reference) = true := by simp
  refine ⟨rfl, ?_, ?_⟩
  · rw [getTransactionByReference_updateTransaction]
    · rw [getTransactionByReference_updateTransaction]
      · rw [ht]
        simp [updateVerificationMetadata, htb]
      · intro u; rfl
    · intro u; rfl
  · intro wid
    rw [walletBalance_updateTransaction, walletBalance_updateTransaction]

theorem attemptVerification_not_due (cfg : Settings) (s : LedgerState)
    (t : Transaction) (now : Int) (gw : GatewayOutcome)
    (hp : t.status = .pending)
    (hdue : isAttemptDue cfg now t = false) :
    attemptVerification cfg s t false now gw = (s, .ok false) := by
  unfold attemptVerification
  have hnp : ¬ t.status ≠ TransactionStatus.pending := by simp [hp]
  rw [if_neg hnp]
  rw [if_pos (by simp [hdue])]

theorem verifyAndCredit_not_found (cfg : Settings) (s : LedgerState) (r : String)
    (now : Int) (gw : GatewayOutcome)
    (ht : getTransactionByReference s r = none) :
    verifyAndCredit cfg s r now gw = (s, .error .transactionNotFound) := by
  unfold verifyAndCredit
  rw [ht]

theorem verifyAndCredit_already_success (cfg : Settings) (s : LedgerState) (r : String)
    (t : Transaction) (now : Int) (gw : GatewayOutcome)
    (ht : getTransactionByReference s r = some t) (hs : t.status = .success) :
    verifyAndCredit cfg s r now gw = (s, .ok t) := by
  unfold verifyAndCredit
  rw [ht]
  simp [hs]

theorem verifyAndCredit_pending_success (cfg : Settings) (s : LedgerState) (r : String)
    (t : Transaction) (w : Wallet) (now : Int) (v : VerifyResult)
    (ht : getTransactionByReference s r = some t)
    (hp : t.status = .pending)
    (hw : getWalletById s t.wallet_id = some w)
    (hv : v.status = some "success") :
    (verifyAndCredit cfg s r now (.ok v)).2 = .ok (creditedTransaction t now v)
    ∧ getTransactionByReference (verifyAndCredit cfg s r now (.ok v)).1 r =
        some (creditedTransaction t now v)
    ∧ walletBalance (verifyAndCredit cfg s r now (.ok v)).1 t.wallet_id =
        some (w.balance + t.amount)
    ∧ (∀ wid, wid ≠ t.wallet_id →
        walletBalance (verifyAndCredit cfg s r now (.ok v)).1 wid = walletBalance s wid) := by
  have hrr : t.reference = r := reference_of_find? ht
  subst hrr
  obtain ⟨h2, htx, hbal, hoth⟩ :=
    attemptVerification_ok_success cfg s t true now v w ht hp (Or.inl rfl) hw hv
  have hred : verifyAndCredit cfg s t.reference now (.ok v) =
      ((attemptVerification cfg s t true now (.ok v)).1, .ok (creditedTransaction t now v)) := by
    unfold verifyAndCredit
    rw [ht]
    rcases hav : attemptVerification cfg s t true now (.ok v) with ⟨s₁, res⟩
    have hres : res = .ok true := by rw [hav] at h2; exact h2
    subst hres
    have htx₁ : getTransactionByReference s₁ t.reference = some (creditedTransaction t now v) := by
      rw [hav] at htx
      exact htx
    have hns : ¬ (t.status = TransactionStatus.success) := by simp [hp]
    simp only [if_neg hns, hav]
    rw [htx₁]
    simp [creditedTransaction]
  rw [hred]
  exact ⟨rfl, htx, hbal, hoth⟩

theorem verifyAndCredit_pending_failed (cfg : Settings) (s : LedgerState) (r : String)
    (t : Transaction) (now : Int) (v : VerifyResult)
    (ht : getTransactionByReference s r = some t)
    (hp : t.status = .pending)
    (hv : v.status = some "failed") :
    (verifyAndCredit cfg s r now (.ok v)).2 = .error .verificationFailed
    ∧ getTransactionByReference (verifyAndCredit cfg s r now (.ok v)).1 r =
        some { t with verification_attempts := t.verification_attempts + 1
                      last_verification_attempt := some now
                      status := .failed
                      extra_data := .verification v }
    ∧ (∀ wid, walletBalance (verifyAndCredit cfg s r now (.ok v)).1 wid =
        walletBalance s wid) := by
  have hrr : t.reference = r := reference_of_find? ht
  subst hrr
  obtain ⟨h2, htx, hbal⟩ :=
    attemptVerification_ok_failed cfg s t true now v ht hp (Or.inl rfl) hv
  have hred : verifyAndCredit cfg s t.reference now (.ok v) =
      ((attemptVerification cfg s t true now (.ok v)).1, .error .verificationFailed) := by
    unfold verifyAndCredit
    rw [ht]
    rcases hav : attemptVerification cfg s t true now (.ok v) with ⟨s₁, res⟩
    have hres : res = .ok true := by rw [hav] at h2; exact h2
    subst hres
    have htx₁ : getTransactionByReference s₁ t.reference =
        some { t with verification_attempts := t.verification_attempts + 1
                      last_verification_attempt := some now
                      status := .failed
                      extra_data := .verification v } := by
      rw [hav] at htx
      exact htx
    have hns : ¬ (t.status = TransactionStatus.success) := by simp [hp]
    simp only [if_neg hns, hav]
    rw [htx₁]
    simp
  rw [hred]
  exact ⟨rfl, htx, hbal⟩

theorem verifyAndCredit_transportError (cfg : Settings) (s : LedgerState) (r : String)
    (t : Transaction) (now : Int)
    (ht : getTransactionByReference s r = some t)
    (hp : t.status = .pending) :
    verifyAndCredit cfg s r now .transportError = (s, .error .verificationUnavailable) := by
  have hrr : t.reference = r := reference_of_find? ht
  unfold verifyAndCredit
  rw [ht]
  have hns : ¬ (t.status = TransactionStatus.success) := by simp [hp]
  simp only [if_neg hns, attemptVerification_transportError cfg s t true now hp (Or.inl rfl)]

theorem verifyAndCredit_httpError (cfg : Settings) (s : LedgerState) (r : String)
    (t : Transaction) (now : Int) (code : Nat)
    (ht : getTransactionByReference s r = some t)
    (hp : t.status = .pending) :
    verifyAndCredit cfg s r now (.httpError code) = (s, .error (.gatewayHttpError code)) := by
  have hrr : t.reference = r := reference_of_find? ht
  unfold verifyAndCredit
  rw [ht]
  have hns : ¬ (t.status = TransactionStatus.success) := by simp [hp]
  simp only [if_neg hns, attemptVerification_httpError cfg s t true now code hp (Or.inl rfl)]

theorem processWebhook_valid (cfg : Settings) (s : LedgerState) (r : String) (a : Int)
    (now : Int) (gw : GatewayOutcome) (hr : r ≠ "") :
    processWebhook cfg s true (.parsed (some r) a) now gw =
      ((verifyAndCredit cfg s r now gw).1,
       match (verifyAndCredit cfg s r now gw).2 with
       | .error e => .error e
       | .ok _ => .ok ()) := by
  unfold processWebhook
  rw [if_neg (by simp)]
  simp only [if_neg hr]
  rcases hvc : verifyAndCredit cfg s r now gw with ⟨s₁, res⟩
  cases res <;> simp [hvc]

/-! ### Forward simulation of each operation -/

theorem attemptVerification_terminal (cfg : Settings) (s : LedgerState)
    (t : Transaction) (force : Bool) (now : Int) (gw : GatewayOutcome)
    (hp : t.status ≠ .pending) :
    attemptVerification cfg s t force now gw = (s, .ok false) := by
  unfold attemptVerification
  rw [if_pos hp]

theorem forwardSim_attemptVerification (cfg : Settings) (s : LedgerState)
    (t : Transaction) (force : Bool) (now : Int) (gw : GatewayOutcome)
    (ht : getTransactionByReference s t.reference = some t) :
    forwardSim s (attemptVerification cfg s t force now gw).1 := by
  by_cases hp : t.status = TransactionStatus.pending
  case neg =>
    rw [attemptVerification_terminal cfg s t force now gw hp]
    exact forwardSim_refl s
  case pos =>
  by_cases hrun : force = true ∨ isAttemptDue cfg now t = true
  case neg =>
    have hf : force = false := by
      cases force
      · rfl
      · exact absurd (Or.inl rfl) hrun
    have hd : isAttemptDue cfg now t = false := by
      cases h : isAttemptDue cfg now t
      · rfl
      · exact absurd (Or.inr h) hrun
    subst hf
    rw [attemptVerification_not_due cfg s t now gw hp hd]
    exact forwardSim_refl s
  case pos =>
  cases gw with
  | httpError code =>
    rw [attemptVerification_httpError cfg s t force now code hp hrun]
    exact forwardSim_refl s
  | transportError =>
    rw [attemptVerification_transportError cfg s t force now hp hrun]
    exact forwardSim_refl s
  | ok v =>
    have sim₁ : forwardSim s (updateTransaction s t.reference (updateVerificationMetadata now)) :=
      forwardSim_updateTransaction (fun u => rfl) (fun u _ => Or.inl rfl)
    have hmid : getTransactionByReference
        (updateTransaction s t.reference (updateVerificationMetadata now)) t.reference =
        some (updateVerificationMetadata now t) := by
      rw [getTransactionByReference_updateTransaction]
      · rw [ht]
        simp
      · intro u; rfl
    by_cases hv₁ : v.status = some "success"
    · cases hw : getWalletById s t.wallet_id with
      | none =>
        rw [attemptVerification_ok_noWallet_eq cfg s t force now v hp hrun hw hv₁]
        exact forwardSim_refl s
      | some w =>
        rw [attemptVerification_ok_success_eq cfg s t force now v w hp hrun hw hv₁]
        have sim₂ := forwardSim_adjustBalance
          (updateTransaction s t.reference (updateVerificationMetadata now)) t.wallet_id t.amount
        have sim₃ : forwardSim
            (adjustBalance (updateTransaction s t.reference (updateVerificationMetadata now))
              t.wallet_id t.amount)
            (updateTransaction
              (adjustBalance (updateTransaction s t.reference (updateVerificationMetadata now))
                t.wallet_id t.amount)
              t.reference
              (fun u => { u with status := .success, extra_data := .verification v })) := by
          apply forwardSim_updateTransaction
          · intro u; rfl
          · intro u hu
            rw [getTransactionByReference_adjustBalance, hmid] at hu
            obtain rfl : updateVerificationMetadata now t = u := by injection hu
            exact Or.inr ⟨hp, Or.inl rfl⟩
        exact forwardSim_trans sim₁ (forwardSim_trans sim₂ sim₃)
    · by_cases hv₂ : v.status = some "failed"
      · rw [attemptVerification_ok_failed_eq cfg s t force now v hp hrun hv₂]
        have sim₂ : forwardSim
            (updateTransaction s t.reference (updateVerificationMetadata now))
            (updateTransaction (updateTransaction s t.reference (updateVerificationMetadata now))
              t.reference
              (fun u => { u with status := .failed, extra_data := .verification v })) := by
          apply forwardSim_updateTransaction
          · intro u; rfl
          · intro u hu
            rw [hmid] at hu
            obtain rfl : updateVerificationMetadata now t = u := by injection hu
            exact Or.inr ⟨hp, Or.inr rfl⟩
        exact forwardSim_trans sim₁ sim₂
      · rw [attemptVerification_ok_other_eq cfg s t force now v hp hrun hv₁ hv₂]
        have sim₂ : forwardSim
            (updateTransaction s t.reference (updateVerificationMetadata now))
            (updateTransaction (updateTransaction s t.reference (updateVerificationMetadata now))
              t.reference
              (fun u => { u with extra_data := .verification v })) :=
          forwardSim_updateTransaction (fun u => rfl) (fun u _ => Or.inl rfl)
        exact forwardSim_trans sim₁ sim₂

theorem verifyAndCredit_state (cfg : Settings) (s : LedgerState) (r : String)
    (t : Transaction) (now : Int) (gw : GatewayOutcome)
    (ht : getTransactionByReference s r = some t)
    (hs : ¬ t.status = TransactionStatus.success) :
    (verifyAndCredit cfg s r now gw).1 = (attemptVerification cfg s t true now gw).1 := by
  unfold verifyAndCredit
  rw [ht]
  simp only [if_neg hs]
  rcases hav : attemptVerification cfg s t true now gw with ⟨s₁, res⟩
  cases res with
  | error e => simp [hav]
  | ok b =>
    simp only [hav]
    cases hfind : getTransactionByReference s₁ r with
    | none => simp
    | some t₁ => by_cases h : t₁.status ≠ TransactionStatus.success <;> simp [h]

theorem forwardSim_verifyAndCredit (cfg : Settings) (s : LedgerState) (r : String)
    (now : Int) (gw : GatewayOutcome) :
    forwardSim s (verifyAndCredit cfg s r now gw).1 := by
  cases ht : getTransactionByReference s r with
  | none =>
    rw [verifyAndCredit_not_found cfg s r now gw ht]
    exact forwardSim_refl s
  | some t =>
    by_cases hs : t.status = TransactionStatus.success
    · rw [verifyAndCredit_already_success cfg s r t now gw ht hs]
      exact forwardSim_refl s
    · rw [verifyAndCredit_state cfg s r t now gw ht hs]
      have ht' : getTransactionByReference s t.reference = some t := by
        rwa [reference_of_find? ht]
      exact forwardSim_attemptVerification cfg s t true now gw ht'

theorem forwardSim_processWebhook (cfg : Settings) (s : LedgerState) (sigValid : Bool)
    (payload : WebhookPayload) (now : Int) (gw : GatewayOutcome) :
    forwardSim s (processWebhook cfg s sigValid payload now gw).1 := by
  unfold processWebhook
  split
  · exact forwardSim_refl s
  · split
    · exact forwardSim_refl s
    · split
      · exact forwardSim_refl s
      · rename_i r
        split
        · exact forwardSim_refl s
        · split
          · rename_i s₁ e heq
            have h := forwardSim_verifyAndCredit cfg s r now gw
            rw [heq] at h
            exact h
          · rename_i s₁ u heq
            have h := forwardSim_verifyAndCredit cfg s r now gw
            rw [heq] at h
            exact h

theorem forwardSim_transfer (s : LedgerState) (sender : Wallet)
    (recipientWalletNumber : String) (amount : Int) (reference : Option String)
    (fresh : String) :
    forwardSim s (transfer s sender recipientWalletNumber amount reference fresh).1 := by
  simp only [transfer]
  split
  · exact forwardSim_refl s
  · split
    · exact forwardSim_refl s
    · split
      · exact forwardSim_refl s
      · split
        · exact forwardSim_refl s
        · split
          · exact forwardSim_refl s
          · exact forwardSim_trans (forwardSim_adjustBalance s sender.id (-amount))
              (forwardSim_trans (forwardSim_adjustBalance _ _ amount)
                (forwardSim_appendTransactions _ _))

theorem forwardSim_initializeDeposit (s : LedgerState) (userId : Nat) (amount : Int)
    (fresh : String) (gw : GatewayInitOutcome) :
    forwardSim s (initializeDeposit s userId amount fresh gw).1 := by
  unfold initializeDeposit
  split
  · exact forwardSim_refl s
  · split
    · exact forwardSim_refl s
    · split
      · exact forwardSim_refl s
      · exact forwardSim_appendTransactions _ _

theorem forwardSim_retryPendingTransactions (cfg : Settings) (s : LedgerState)
    (now : Int) (gw : String → GatewayOutcome) :
    forwardSim s (retryPendingTransactions cfg s now gw).1 := by
  unfold retryPendingTransactions
  have main : ∀ (l : List Transaction) (acc : LedgerState × Nat), forwardSim s acc.1 →
      forwardSim s ((l.foldl
        (fun acc t =>
          match getTransactionByReference acc.1 t.reference with
          | none => acc
          | some cur =>
            match attemptVerification cfg acc.1 cur false now (gw t.reference) with
            | (_, .error _) => acc
            | (s₁, .ok updated) => (s₁, if updated then acc.2 + 1 else acc.2))
        acc)).1 := by
    intro l
    induction l with
    | nil => intro acc h; exact h
    | cons t l ih =>
      intro acc h
      rw [List.foldl_cons]
      apply ih
      cases hcur : getTransactionByReference acc.1 t.reference with
      | none => simpa [hcur] using h
      | some cur =>
        have hcr : getTransactionByReference acc.1 cur.reference = some cur := by
          rwa [reference_of_find? hcur]
        have hsim := forwardSim_attemptVerification cfg acc.1 cur false now (gw t.reference) hcr
        rcases hav : attemptVerification cfg acc.1 cur false now (gw t.reference) with ⟨s₁, res⟩
        cases res with
        | error e => simpa [hcur, hav] using h
        | ok updated =>
          simp only [hcur, hav]
          rw [hav] at hsim
          exact forwardSim_trans h hsim
  exact main _ (s, 0) (forwardSim_refl s)

/-! ### Transfer computation -/

theorem walletBalance_withTransactions (s : LedgerState) (l : List Transaction) (wid : Nat) :
    walletBalance { s with transactions := l } wid = walletBalance s wid := rfl

theorem transfer_success_eq (s : LedgerState) (sender recipient : Wallet) (num : String)
    (a : Int) (reference : Option String) (fresh : String)
    (ha : 0 < a)
    (hrec : getWalletByNumber s num = some recipient)
    (hne : ¬ recipient.id = sender.id)
    (href : getTransactionByReference s (resolveReference reference fresh) = none)
    (hbal : ¬ sender.balance < a) :
    transfer s sender num a reference fresh =
      ({ adjustBalance (adjustBalance s sender.id (-a)) recipient.id a with
          transactions :=
            (adjustBalance (adjustBalance s sender.id (-a)) recipient.id a).transactions
              ++ [transferTransaction sender recipient (resolveReference reference fresh) a] },
       .ok (transferTransaction sender recipient (resolveReference reference fresh) a)) := by
  unfold transfer
  rw [if_neg (show ¬ a ≤ 0 by omega)]
  simp only [hrec, if_neg hne, href, if_neg hbal]
  simp [transferTransaction]

/-- C1: for a positive amount, an existing distinct recipient, an unused
reference and a sufficient sender balance, `transfer` debits the sender
by exactly `a`, credits the recipient by exactly `a`, keeps the sum of
the two balances, and inserts a `success` transfer row (no pending
phase) carrying the recipient's id and number. -/
theorem transfer_moves_funds_atomically (s : LedgerState) (sender recipient : Wallet)
    (num : String) (a : Int) (reference : Option String) (fresh : String)
    (ha : 0 < a)
    (hrec : getWalletByNumber s num = some recipient)
    (hne : recipient.id ≠ sender.id)
    (hsender : getWalletById s sender.id = some sender)
    (hrecid : getWalletById s recipient.id = some recipient)
    (href : getTransactionByReference s (resolveReference reference fresh) = none)
    (hbal : a ≤ sender.balance) :
    (transfer s sender num a reference fresh).2 =
      .ok (transferTransaction sender recipient (resolveReference reference fresh) a)
    ∧ walletBalance (transfer s sender num a reference fresh).1 sender.id =
        some (sender.balance - a)
    ∧ walletBalance (transfer s sender num a reference fresh).1 recipient.id =
        some (recipient.balance + a)
    ∧ (sender.balance - a) + (recipient.balance + a) = sender.balance + recipient.balance
    ∧ getTransactionByReference (transfer s sender num a reference fresh).1
        (resolveReference reference fresh) =
        some (transferTransaction sender recipient (resolveReference reference fresh) a)
    ∧ (transferTransaction sender recipient (resolveReference reference fresh) a).status =
        .success := by
  have hsne : sender.id ≠ recipient.id := fun h => hne h.symm
  have heq := transfer_success_eq s sender recipient num a reference fresh ha hrec hne href
    (not_lt.mpr hbal)
  rw [heq]
  refine ⟨rfl, ?_, ?_, by ring, ?_, rfl⟩
  · rw [walletBalance_withTransactions]
    rw [walletBalance_adjustBalance_other a hsne]
    rw [walletBalance_adjustBalance_self (-a) hsender]
    rw [sub_eq_add_neg]
  · rw [walletBalance_withTransactions]
    have hrec₁ : getWalletById (adjustBalance s sender.id (-a)) recipient.id = some recipient := by
      rw [getWalletById_adjustBalance, hrecid]
      have hid : recipient.id = recipient.id := rfl
      simp [id_of_getWalletById hrecid, hne]
    exact walletBalance_adjustBalance_self a hrec₁
  · rw [getTransactionByReference_append]
    rw [show getTransactionByReference (adjustBalance (adjustBalance s sender.id (-a))
          recipient.id a) (resolveReference reference fresh) =
        getTransactionByReference s (resolveReference reference fresh) from rfl]
    rw [href]
    simp [transferTransaction]

/-- C5: with every other precondition satisfied but the sender balance
below the amount, `transfer` fails with `InsufficientBalance` and the
state is returned untouched: both balances unchanged and no transaction
row inserted. -/
theorem transfer_insufficient_balance_rejected (s : LedgerState) (sender recipient : Wallet)
    (num : String) (a : Int) (reference : Option String) (fresh : String)
    (ha : 0 < a)
    (hrec : getWalletByNumber s num = some recipient)
    (hne : recipient.id ≠ sender.id)
    (href : getTransactionByReference s (resolveReference reference fresh) = none)
    (hbal : sender.balance < a) :
    transfer s sender num a reference fresh = (s, .error .insufficientBalance) := by
  unfold transfer
  rw [if_neg (show ¬ a ≤ 0 by omega)]
  simp only [hrec, if_neg hne, href, if_pos hbal]

/-- C7: `transfer` checks its preconditions exactly in the spec's order
(amount positive, recipient exists, recipient distinct, reference
unused, balance sufficient), and on any input violating several of them
reports precisely the earliest violated one with its distinct error. -/
theorem transfer_first_failure_matches_spec_order (s : LedgerState) (sender : Wallet)
    (num : String) (a : Int) (reference : Option String) (fresh : String) :
    transferError s sender num a reference fresh =
      specTransferFirstFailure s sender num a reference fresh := by
  unfold transferError transfer specTransferFirstFailure
  by_cases h1 : a ≤ 0
  · simp [h1]
  · simp only [if_neg h1]
    cases h2 : getWalletByNumber s num with
    | none => simp
    | some recipient =>
      by_cases h3 : recipient.id = sender.id
      · simp [h3]
      · simp only [if_neg h3]
        cases h4 : getTransactionByReference s (resolveReference reference fresh) with
        | some t => simp
        | none =>
          by_cases h5 : sender.balance < a
          · simp [h5]
          · simp [h5]

/-! ### Webhook and deposit claims -/

theorem processWebhook_invalid_signature (cfg : Settings) (s : LedgerState)
    (payload : WebhookPayload) (now : Int) (gw : GatewayOutcome) :
    processWebhook cfg s false payload now gw = (s, .error .invalidSignature) := by
  unfold processWebhook
  simp

/-- C2: once a deposit transaction is `success`, any further run of the
reconciliation path is a no-op; concretely, a first valid webhook
delivery credits the wallet exactly once and a second delivery of the
same payload (with any gateway outcome and at any time) returns the
same state unchanged. -/
theorem processWebhook_idempotent (cfg : Settings) (s : LedgerState) (r : String)
    (t : Transaction) (w : Wallet) (a now now₂ : Int) (v : VerifyResult)
    (gw₂ : GatewayOutcome)
    (ht : getTransactionByReference s r = some t)
    (hp : t.status = .pending)
    (hw : getWalletById s t.wallet_id = some w)
    (hr : r ≠ "")
    (hv : v.status = some "success") :
    (processWebhook cfg s true (.parsed (some r) a) now (.ok v)).2 = .ok ()
    ∧ walletBalance (processWebhook cfg s true (.parsed (some r) a) now (.ok v)).1
        t.wallet_id = some (w.balance + t.amount)
    ∧ processWebhook cfg (processWebhook cfg s true (.parsed (some r) a) now (.ok v)).1
        true (.parsed (some r) a) now₂ gw₂ =
        ((processWebhook cfg s true (.parsed (some r) a) now (.ok v)).1, .ok ()) := by
  obtain ⟨hv2, htx, hbal, hoth⟩ := verifyAndCredit_pending_success cfg s r t w now v ht hp hw hv
  have hpw := processWebhook_valid cfg s r a now (.ok v) hr
  have h1 : (processWebhook cfg s true (.parsed (some r) a) now (.ok v)).1 =
      (verifyAndCredit cfg s r now (.ok v)).1 := by rw [hpw]
  have h2 : (processWebhook cfg s true (.parsed (some r) a) now (.ok v)).2 = .ok () := by
    rw [hpw]
    rcases hvc : (verifyAndCredit cfg s r now (.ok v)).2 with e | t₁
    · rw [hvc] at hv2
      cases hv2
    · simp [hvc]
  refine ⟨h2, ?_, ?_⟩
  · rw [h1]
    exact hbal
  · rw [h1]
    have hsucc : (creditedTransaction t now v).status = .success := rfl
    have hvc2 := verifyAndCredit_already_success cfg (verifyAndCredit cfg s r now (.ok v)).1 r
      (creditedTransaction t now v) now₂ gw₂ htx hsucc
    rw [processWebhook_valid cfg (verifyAndCredit cfg s r now (.ok v)).1 r a now₂ gw₂ hr, hvc2]

/-- C3 counterexample: with a valid signature and a well-formed payload
whose reference names no stored transaction, the webhook path does not
return the processed result: it fails with `TransactionNotFound`
(HTTP 404), refuting "`{status: "processed"}` always on valid
signature". -/
theorem processWebhook_unknown_reference_fails :
    (processWebhook cfg0 stateNoTx true (.parsed (some "missing") 7) 0 (.ok vOk)).2 =
      .error .transactionNotFound := by
  rfl

/-- C3 amended: on a valid signature the webhook returns processed when
the referenced transaction verifies successfully (or is already
`success`); it fails with `TransactionNotFound` when the reference is
unknown (see the counterexample) and with the 400 "Paystack
verification failed" when the provider reports the charge failed;
invalid signatures are rejected with `InvalidSignature`. -/
theorem processWebhook_outcomes (cfg : Settings) (s : LedgerState) (r : String)
    (t : Transaction) (w : Wallet) (a now : Int) (v vf : VerifyResult)
    (ht : getTransactionByReference s r = some t)
    (hp : t.status = .pending)
    (hw : getWalletById s t.wallet_id = some w)
    (hr : r ≠ "")
    (hv : v.status = some "success")
    (hvf : vf.status = some "failed") :
    processWebhook cfg s false (.parsed (some r) a) now (.ok v) =
      (s, .error .invalidSignature)
    ∧ (processWebhook cfg s true (.parsed (some r) a) now (.ok v)).2 = .ok ()
    ∧ (processWebhook cfg s true (.parsed (some r) a) now (.ok vf)).2 =
        .error .verificationFailed := by
  refine ⟨processWebhook_invalid_signature cfg s _ now _, ?_, ?_⟩
  · obtain ⟨hv2, htx, hbal⟩ := verifyAndCredit_pending_success cfg s r t w now v ht hp hw hv
    rw [processWebhook_valid cfg s r a now (.ok v) hr]
    rcases hvc : (verifyAndCredit cfg s r now (.ok v)).2 with e | t₁
    · rw [hvc] at hv2
      cases hv2
    · simp [hvc]
  · obtain ⟨hf2, htx, hbal⟩ := verifyAndCredit_pending_failed cfg s r t now vf ht hp hvf
    rw [processWebhook_valid cfg s r a now (.ok vf) hr]
    rcases hvc : (verifyAndCredit cfg s r now (.ok vf)).2 with e | t₁
    · rw [hvc] at hf2
      injection hf2 with hf2
      rw [hf2]
    · rw [hvc] at hf2
      cases hf2

/-- C4 counterexample: when the gateway verification call raises an
`HTTPException` (here a 503 from `PaystackClient._handle_response`),
the reconciliation path re-raises that same gateway error — not
`VerificationUnavailable` — refuting "any exception ... surfaces as
`VerificationUnavailable`".  The write is still aborted: the state
comes back untouched. -/
theorem verification_gateway_http_error_propagates :
    verifyAndCredit cfg0 sampleState "r1" 0 (.httpError 503) =
      (sampleState, .error (.gatewayHttpError 503))
    ∧ WalletError.gatewayHttpError 503 ≠ WalletError.verificationUnavailable := by
  constructor
  · exact verifyAndCredit_httpError cfg0 sampleState "r1" txPending 0 503 (by decide) rfl
  · decide

/-- C4 amended: any exception from the gateway verification call aborts
the in-progress write — the state is returned untouched, so there is no
partial credit and the transaction stays `pending` — and surfaces as
`VerificationUnavailable` when it is not an HTTP error from the client;
an `HTTPException` raised by the gateway client propagates unchanged as
that gateway error. -/
theorem verification_exception_aborts_write (cfg : Settings) (s : LedgerState)
    (r : String) (t : Transaction) (now : Int)
    (ht : getTransactionByReference s r = some t)
    (hp : t.status = .pending) :
    verifyAndCredit cfg s r now .transportError = (s, .error .verificationUnavailable)
    ∧ (∀ code, verifyAndCredit cfg s r now (.httpError code) =
        (s, .error (.gatewayHttpError code))) :=
  ⟨verifyAndCredit_transportError cfg s r t now ht hp,
   fun code => verifyAndCredit_httpError cfg s r t now code ht hp⟩

/-- C6: when the Paystack initialize call fails after the pending
transaction row was flushed, `initialize_deposit` rolls the unit of
work back entirely — the returned state is the input state, so no
orphan pending row remains — and re-raises the gateway's exception. -/
theorem initializeDeposit_gateway_failure_rolls_back (s : LedgerState) (userId : Nat)
    (amount : Int) (fresh : String) (e : WalletError) (w : Wallet)
    (ha : 0 < amount)
    (hw : getWalletForUser s userId = some w) :
    initializeDeposit s userId amount fresh (.failed e) = (s, .error e) := by
  unfold initializeDeposit
  rw [if_neg (show ¬ amount ≤ 0 by omega)]
  simp only [hw]

/-- C10: whenever reconciliation credits a wallet, the balance delta is
exactly the amount stored in the transaction row at deposit initiation;
neither the amount carried in the webhook body nor any amount in the
gateway verification response influences it, so any two valid payloads
naming the same reference produce the same balance effect. -/
theorem credit_amount_from_stored_transaction (cfg : Settings) (s : LedgerState)
    (r : String) (t : Transaction) (w : Wallet)
    (ht : getTransactionByReference s r = some t)
    (hp : t.status = .pending)
    (hw : getWalletById s t.wallet_id = some w)
    (hr : r ≠ "") :
    (∀ a now v, v.status = some "success" →
        walletBalance (processWebhook cfg s true (.parsed (some r) a) now (.ok v)).1
          t.wallet_id = some (w.balance + t.amount))
    ∧ (∀ a₁ a₂ now₁ now₂ v₁ v₂, v₁.status = some "success" → v₂.status = some "success" →
        walletBalance (processWebhook cfg s true (.parsed (some r) a₁) now₁ (.ok v₁)).1
          t.wallet_id =
        walletBalance (processWebhook cfg s true (.parsed (some r) a₂) now₂ (.ok v₂)).1
          t.wallet_id) := by
  have main : ∀ a now v, v.status = some "success" →
      walletBalance (processWebhook cfg s true (.parsed (some r) a) now (.ok v)).1
        t.wallet_id = some (w.balance + t.amount) := by
    intro a now v hv
    have hpw := processWebhook_valid cfg s r a now (.ok v) hr
    have h1 : (processWebhook cfg s true (.parsed (some r) a) now (.ok v)).1 =
        (verifyAndCredit cfg s r now (.ok v)).1 := by rw [hpw]
    rw [h1]
    exact (verifyAndCredit_pending_success cfg s r t w now v ht hp hw hv).2.2.1
  exact ⟨main, fun a₁ a₂ now₁ now₂ v₁ v₂ h₁ h₂ => by
    rw [main a₁ now₁ v₁ h₁, main a₂ now₂ v₂ h₂]⟩

/-! ### Status monotonicity and pacing claims -/

/-- C8: transaction status only moves forward.  Every ledger-engine
operation — deposit initiation, transfer, a verification attempt,
reconciliation, the webhook path and the retry sweep — either leaves
each stored transaction's status unchanged or moves it from `pending`
to `success` or `failed`; terminal statuses are never revisited. -/
theorem status_transitions_forward (cfg : Settings) (s : LedgerState) (now : Int) :
    (∀ userId amount fresh gw, forwardSim s (initializeDeposit s userId amount fresh gw).1)
    ∧ (∀ sender num amount reference fresh,
        forwardSim s (transfer s sender num amount reference fresh).1)
    ∧ (∀ t force gw, getTransactionByReference s t.reference = some t →
        forwardSim s (attemptVerification cfg s t force now gw).1)
    ∧ (∀ r gw, forwardSim s (verifyAndCredit cfg s r now gw).1)
    ∧ (∀ sigValid payload gw, forwardSim s (processWebhook cfg s sigValid payload now gw).1)
    ∧ (∀ gw, forwardSim s (retryPendingTransactions cfg s now gw).1) :=
  ⟨fun userId amount fresh gw => forwardSim_initializeDeposit s userId amount fresh gw,
   fun sender num amount reference fresh =>
     forwardSim_transfer s sender num amount reference fresh,
   fun t force gw ht => forwardSim_attemptVerification cfg s t force now gw ht,
   fun r gw => forwardSim_verifyAndCredit cfg s r now gw,
   fun sigValid payload gw => forwardSim_processWebhook cfg s sigValid payload now gw,
   fun gw => forwardSim_retryPendingTransactions cfg s now gw⟩

/-- C9: on the non-forced retry path a verification round happens only
if the attempt is due; a transaction with no prior attempt is always
due, otherwise due means the elapsed time reaches the applicable
threshold, which is the fast interval below the configured attempt
count and the longer backoff from that count on; when due, a round is
performed and stamps the attempt metadata. -/
theorem pacing_policy (cfg : Settings) (s : LedgerState) (t : Transaction) (now : Int) :
    (t.status = .pending → isAttemptDue cfg now t = false →
      ∀ gw, attemptVerification cfg s t false now gw = (s, .ok false))
    ∧ (t.last_verification_attempt = none → isAttemptDue cfg now t = true)
    ∧ (∀ last, t.last_verification_attempt = some last →
        (isAttemptDue cfg now t = true ↔
          (requiredWaitSeconds cfg t.verification_attempts : Int) ≤ now - last))
    ∧ (t.verification_attempts < cfg.paystack_verify_threshold_attempts →
        requiredWaitSeconds cfg t.verification_attempts =
          cfg.paystack_verify_interval_seconds)
    ∧ (cfg.paystack_verify_threshold_attempts ≤ t.verification_attempts →
        requiredWaitSeconds cfg t.verification_attempts =
          cfg.paystack_verify_backoff_seconds)
    ∧ (t.status = .pending → isAttemptDue cfg now t = true →
        getTransactionByReference s t.reference = some t →
        ∀ v w, getWalletById s t.wallet_id = some w →
          ∃ t', getTransactionByReference
              (attemptVerification cfg s t false now (.ok v)).1 t.reference = some t'
            ∧ t'.verification_attempts = t.verification_attempts + 1
            ∧ t'.last_verification_attempt = some now) := by
  refine ⟨?_, ?_, ?_, ?_, ?_, ?_⟩
  · intro hp hdue gw
    exact attemptVerification_not_due cfg s t now gw hp hdue
  · intro h
    unfold isAttemptDue
    rw [h]
  · intro last h
    simp [isAttemptDue, h]
  · intro h
    unfold requiredWaitSeconds
    rw [if_neg (by omega)]
  · intro h
    unfold requiredWaitSeconds
    rw [if_pos h]
  · intro hp hdue ht v w hw
    by_cases hv₁ : v.status = some "success"
    · obtain ⟨h1, htx, h3, h4⟩ :=
        attemptVerification_ok_success cfg s t false now v w ht hp (Or.inr hdue) hw hv₁
      exact ⟨creditedTransaction t now v, htx, rfl, rfl⟩
    · by_cases hv₂ : v.status = some "failed"
      · obtain ⟨h1, htx, h3⟩ :=
          attemptVerification_ok_failed cfg s t false now v ht hp (Or.inr hdue) hv₂
        exact ⟨_, htx, rfl, rfl⟩
      · obtain ⟨h1, htx, h3⟩ :=
          attemptVerification_ok_other cfg s t false now v ht hp (Or.inr hdue) hv₁ hv₂
        exact ⟨_, htx, rfl, rfl⟩

/-! ### Closed instances of the claims with hypotheses -/

/-- C1 at a concrete state: wallet 1 (balance 100) transfers 30 to
wallet 2 (balance 5). -/
theorem transfer_moves_funds_atomically_witness :
    walletBalance (transfer sampleState wA "W2" 30 none "t-ref").1 1 = some 70
    ∧ walletBalance (transfer sampleState wA "W2" 30 none "t-ref").1 2 = some 35 := by
  have h := transfer_moves_funds_atomically sampleState wA wB "W2" 30 none "t-ref"
    (by decide) (by decide) (by decide) (by decide) (by decide) (by decide) (by decide)
  exact ⟨h.2.1, h.2.2.1⟩

/-- C5 at a concrete state: wallet 2 (balance 5) cannot send 500. -/
theorem transfer_insufficient_balance_rejected_witness :
    transfer sampleState wB "W1" 500 none "t-ref2" =
      (sampleState, .error .insufficientBalance) :=
  transfer_insufficient_balance_rejected sampleState wB wA "W1" 500 none "t-ref2"
    (by decide) (by decide) (by decide) (by decide) (by decide)

/-- C2 at a concrete state: the pending 40-unit deposit "r1" is credited
once (100 → 140) and a replay — even with a failing gateway — is a
no-op returning the same state. -/
theorem processWebhook_idempotent_witness :
    (processWebhook cfg0 sampleState true (.parsed (some "r1") 0) 0 (.ok vOk)).2 = .ok ()
    ∧ walletBalance
        (processWebhook cfg0 sampleState true (.parsed (some "r1") 0) 0 (.ok vOk)).1 1 =
        some 140
    ∧ processWebhook cfg0
        (processWebhook cfg0 sampleState true (.parsed (some "r1") 0) 0 (.ok vOk)).1
        true (.parsed (some "r1") 0) 99 (.httpError 500) =
        ((processWebhook cfg0 sampleState true (.parsed (some "r1") 0) 0 (.ok vOk)).1,
         .ok ()) := by
  have h := processWebhook_idempotent cfg0 sampleState "r1" txPending wA 0 0 99 vOk
    (.httpError 500) (by decide) rfl rfl (by decide) rfl
  exact ⟨h.1, h.2.1, h.2.2⟩

/-- C3 (amended) at a concrete state. -/
theorem processWebhook_outcomes_witness :
    processWebhook cfg0 sampleState false (.parsed (some "r1") 0) 0 (.ok vOk) =
      (sampleState, .error .invalidSignature)
    ∧ (processWebhook cfg0 sampleState true (.parsed (some "r1") 0) 0 (.ok vOk)).2 = .ok ()
    ∧ (processWebhook cfg0 sampleState true (.parsed (some "r1") 0) 0 (.ok vBad)).2 =
        .error .verificationFailed :=
  processWebhook_outcomes cfg0 sampleState "r1" txPending wA 0 0 vOk vBad
    (by decide) rfl rfl (by decide) rfl rfl

/-- C4 (amended) at a concrete state. -/
theorem verification_exception_aborts_write_witness :
    verifyAndCredit cfg0 sampleState "r1" 0 .transportError =
      (sampleState, .error .verificationUnavailable)
    ∧ verifyAndCredit cfg0 sampleState "r1" 0 (.httpError 500) =
        (sampleState, .error (.gatewayHttpError 500)) := by
  have h := verification_exception_aborts_write cfg0 sampleState "r1" txPending 0
    (by decide) rfl
  exact ⟨h.1, h.2 500⟩

/-- C6 at a concrete state: a failing gateway initialize leaves the
ledger exactly as it was. -/
theorem initializeDeposit_gateway_failure_rolls_back_witness :
    initializeDeposit sampleState 10 50 "d-ref" (.failed (.gatewayHttpError 500)) =
      (sampleState, .error (.gatewayHttpError 500)) :=
  initializeDeposit_gateway_failure_rolls_back sampleState 10 50 "d-ref"
    (.gatewayHttpError 500) wA (by decide) (by decide)

/-- C8 at a concrete state: forcing verification of the pending deposit
"r1" moves it `pending → success`, a forward step. -/
theorem status_transitions_forward_witness :
    getTransactionByReference
      (attemptVerification cfg0 sampleState txPending true 0 (.ok vOk)).1 "r1" =
      some (creditedTransaction txPending 0 vOk)
    ∧ statusForward TransactionStatus.pending (creditedTransaction txPending 0 vOk).status := by
  have hcomp : getTransactionByReference
      (attemptVerification cfg0 sampleState txPending true 0 (.ok vOk)).1 "r1" =
      some (creditedTransaction txPending 0 vOk) := by rfl
  obtain ⟨t', h1, h2⟩ := ((status_transitions_forward cfg0 sampleState 0).2.2.1 txPending true
    (.ok vOk) rfl) "r1" txPending rfl
  have ht' : t' = creditedTransaction txPending 0 vOk := by
    rw [hcomp] at h1
    exact (Option.some.inj h1).symm
  refine ⟨hcomp, ?_⟩
  rw [← ht']
  exact h2

/-- C9 at a concrete state: with interval 5s, backoff 60s and threshold
3 attempts, the thrice-attempted transaction is not due 10s after its
last attempt (so the non-forced path does nothing), a never-attempted
transaction is due, and the wait for 3 attempts is the backoff. -/
theorem pacing_policy_witness :
    attemptVerification cfg0 sampleState txRetried false 10 (.ok vOk) =
      (sampleState, .ok false)
    ∧ isAttemptDue cfg0 10 txPending = true
    ∧ requiredWaitSeconds cfg0 txRetried.verification_attempts =
        cfg0.paystack_verify_backoff_seconds := by
  refine ⟨?_, ?_, ?_⟩
  · exact (pacing_policy cfg0 sampleState txRetried 10).1 rfl (by decide) (.ok vOk)
  · exact (pacing_policy cfg0 sampleState txPending 10).2.1 rfl
  · exact (pacing_policy cfg0 sampleState txRetried 10).2.2.2.2.1 (by decide)

/-- C10 at a concrete state: two valid webhook deliveries for "r1" with
different body amounts and different provider-reported amounts both
leave wallet 1 at exactly 100 + 40. -/
theorem credit_amount_from_stored_transaction_witness :
    walletBalance
      (processWebhook cfg0 sampleState true (.parsed (some "r1") 7) 0 (.ok vOk)).1 1 =
      some 140
    ∧ walletBalance
        (processWebhook cfg0 sampleState true
          (.parsed (some "r1") 123456) 5
          (.ok { status := some "success", amount := 1 })).1 1 =
        some 140 := by
  have h := credit_amount_from_stored_transaction cfg0 sampleState "r1" txPending wA
    (by decide) rfl rfl (by decide)
  exact ⟨h.1 7 0 vOk rfl, h.1 123456 5 { status := some "success", amount := 1 } rfl⟩

end WalletSetup
